import Mathlib

/-!
Verification of the systemd-networkd configuration engine
(incus-osd/internal/systemd/networkd.go).

The pure configuration synthesizer is embedded directly; the stateful
parts (the artifact writer, the two convergence waiters and the apply
orchestrator) are embedded by explicit environment passing: every external
command or file-system call is a field of an environment record, the
deadline is a fuel parameter counting remaining poll cycles, and each
operation returns its result together with the trace of the external
actions it attempted, in order.
-/

/-! ## Data model (api package) -/

/-- Modelled from the spec: Route, `To` (destination CIDR or default),
`Via` (dhcp4, slaac, or a literal gateway address). The api package holding
these struct definitions is not part of the provided source. -/
structure SystemNetworkRoute where
  To : String
  Via : String
deriving DecidableEq

/-- Modelled from the spec: Interface, a physical NIC: Name (logical bridge
name), Hwaddr (permanent MAC), MTU (0 = unset), Addresses (each dhcp4,
dhcp6, slaac or a literal CIDR), Routes, LLDP, VLAN (0 = none; primary
untagged VLAN id), VLANTags (additional tagged VLANs). -/
structure SystemNetworkInterface where
  Name : String
  Hwaddr : String
  MTU : Int
  Addresses : List String
  Routes : List SystemNetworkRoute
  LLDP : Bool
  VLAN : Int
  VLANTags : List Int
deriving DecidableEq

/-- Modelled from the spec: Bond, mirrors Interface plus Members (non-empty
ordered member MAC addresses), Mode (bonding policy), with Hwaddr an
optional override defaulting to the first member's MAC. -/
structure SystemNetworkBond where
  Name : String
  Hwaddr : String
  Mode : String
  MTU : Int
  Addresses : List String
  Routes : List SystemNetworkRoute
  LLDP : Bool
  VLAN : Int
  VLANTags : List Int
  Members : List String
deriving DecidableEq

/-- Modelled from the spec: VLAN, a tagged sub-interface: Name, Parent
(name of an Interface or Bond), ID (802.1Q tag), Addresses, Routes, MTU. -/
structure SystemNetworkVLAN where
  Name : String
  Parent : String
  ID : Int
  MTU : Int
  Addresses : List String
  Routes : List SystemNetworkRoute
deriving DecidableEq

/-- Modelled from the spec: DNSConfig: Hostname, Domain, SearchDomains,
Nameservers. -/
structure SystemNetworkDNS where
  Hostname : String
  Domain : String
  SearchDomains : List String
  Nameservers : List String
deriving DecidableEq

/-- Modelled from the spec: NTPConfig: Timeservers. -/
structure SystemNetworkNTP where
  Timeservers : List String
deriving DecidableEq

/-- Modelled from the spec: ProxyConfig; the core only passes it through to
the environment-update step, so its fields are irrelevant here. -/
structure SystemNetworkProxy where
deriving DecidableEq

/-- Modelled from the spec: NetworkConfig, the root aggregate. -/
structure SystemNetworkConfig where
  Interfaces : List SystemNetworkInterface
  Bonds : List SystemNetworkBond
  VLANs : List SystemNetworkVLAN
  DNS : Option SystemNetworkDNS
  NTP : Option SystemNetworkNTP
  Proxy : Option SystemNetworkProxy
deriving DecidableEq

/-! ## String helpers mirroring the Go standard-library calls -/

/-- strings.ToLower, on the character list of the string. -/
def lowerString (s : String) : String :=
  String.mk (s.data.map Char.toLower)

/-- strings.ReplaceAll s ":" "": removing every colon character. -/
def stripColons (s : String) : String :=
  String.mk (s.data.filter (fun c => c != ':'))

/-- strings.ToLower(strings.ReplaceAll(hwaddr, ":", "")), as the source
computes the renamed-device suffix from a MAC address. -/
def strippedHwaddr (s : String) : String :=
  lowerString (stripColons s)

/-- strconv.FormatBool. -/
def formatBool (b : Bool) : String :=
  if b then "true" else "false"

/-- The mtuString snippet the source computes before each netdev template:
empty when MTU is 0, otherwise MTUBytes=(mtu). -/
def mtuString (mtu : Int) : String :=
  if mtu = 0 then "" else "MTUBytes=" ++ toString mtu

/-! ## networkdConfigFile and the .link file generator (networkd.go) -/

/-- networkdConfigFile: a given filename and its contents. -/
structure networkdConfigFile where
  Name : String
  Contents : String
deriving DecidableEq

/-- The 00- link file generateLinkFileContents appends for one interface. -/
def interfaceLinkFile (i : SystemNetworkInterface) : networkdConfigFile :=
  { Name := "00-en" ++ strippedHwaddr i.Hwaddr ++ ".link"
    Contents := "[Match]\nPermanentMACAddress=" ++ i.Hwaddr ++
      "\n\n[Link]\nNamePolicy=\nName=en" ++ strippedHwaddr i.Hwaddr ++ "\n" }

/-- The 01- link file generateLinkFileContents appends for one bond member. -/
def bondMemberLinkFile (member : String) : networkdConfigFile :=
  { Name := "01-en" ++ strippedHwaddr member ++ ".link"
    Contents := "[Match]\nPermanentMACAddress=" ++ member ++
      "\n\n[Link]\nNamePolicy=\nName=en" ++ strippedHwaddr member ++ "\n" }

/-- generateLinkFileContents: one 00- file per interface, then one 01- file
per bond member, in declaration order. -/
def generateLinkFileContents (networkCfg : SystemNetworkConfig) : List networkdConfigFile :=
  networkCfg.Interfaces.map interfaceLinkFile ++
    networkCfg.Bonds.flatMap (fun b => b.Members.map bondMemberLinkFile)

/-! ## The .netdev file generator -/

/-- The bond MAC the source derives before rendering a bond: the explicit
Hwaddr override, or the first member's MAC when the override is empty
(the Go code indexes Members[0]; an empty member list would panic there,
headD only keeps this definition total). -/
def bondMacAddr (b : SystemNetworkBond) : String :=
  if b.Hwaddr = "" then b.Members.headD "" else b.Hwaddr

/-- The parent MAC lookup the source performs for a VLAN: scan Interfaces
for the first name match and take its Hwaddr; when that leaves the empty
string, scan Bonds for the first name match and take its Hwaddr override or
first member; otherwise the empty string. -/
def vlanParentMAC (networkCfg : SystemNetworkConfig) (parent : String) : String :=
  let fromInterfaces :=
    match networkCfg.Interfaces.find? (fun i => i.Name = parent) with
    | some i => i.Hwaddr
    | none => ""
  if fromInterfaces = "" then
    match networkCfg.Bonds.find? (fun b => b.Name = parent) with
    | some b => if b.Hwaddr ≠ "" then b.Hwaddr else b.Members.headD ""
    | none => ""
  else
    fromInterfaces

/-- The 10- bridge netdev file rendered per interface. -/
def interfaceNetdevFile (i : SystemNetworkInterface) : networkdConfigFile :=
  { Name := "10-br" ++ strippedHwaddr i.Hwaddr ++ ".netdev"
    Contents := "[NetDev]\nName=" ++ i.Name ++ "\nKind=bridge\nMACAddress=" ++
      i.Hwaddr ++ "\n" ++ mtuString i.MTU ++ "\n\n[Bridge]\nVLANFiltering=true\n" }

/-- The 11- bond netdev file rendered per bond. -/
def bondNetdevFile (b : SystemNetworkBond) : networkdConfigFile :=
  { Name := "11-bn" ++ strippedHwaddr (bondMacAddr b) ++ ".netdev"
    Contents := "[NetDev]\nName=bn" ++ strippedHwaddr (bondMacAddr b) ++
      "\nKind=bond\nMACAddress=" ++ bondMacAddr b ++ "\n" ++ mtuString b.MTU ++
      "\n\n[Bond]\nMode=" ++ b.Mode ++ "\n" }

/-- The 11- companion bridge netdev file rendered per bond. -/
def bondBridgeNetdevFile (b : SystemNetworkBond) : networkdConfigFile :=
  { Name := "11-br" ++ strippedHwaddr (bondMacAddr b) ++ ".netdev"
    Contents := "[NetDev]\nName=" ++ b.Name ++ "\nKind=bridge\nMACAddress=" ++
      bondMacAddr b ++ "\n" ++ mtuString b.MTU ++ "\n\n[Bridge]\nVLANFiltering=true\n" }

/-- The 12- veth netdev file rendered per VLAN. -/
def vlanNetdevFile (networkCfg : SystemNetworkConfig) (v : SystemNetworkVLAN) : networkdConfigFile :=
  { Name := "12-" ++ v.Name ++ ".netdev"
    Contents := "[NetDev]\nName=" ++ v.Name ++ "\nKind=veth\nMACAddress=" ++
      vlanParentMAC networkCfg v.Parent ++ "\n" ++ mtuString v.MTU ++
      "\n\n[Peer]\nName=vl" ++ v.Name ++ "\n" }

/-- generateNetdevFileContents: one bridge device per interface, a bond plus
a bridge device per bond, one veth pair per VLAN, in declaration order. -/
def generateNetdevFileContents (networkCfg : SystemNetworkConfig) : List networkdConfigFile :=
  networkCfg.Interfaces.map interfaceNetdevFile ++
    networkCfg.Bonds.flatMap (fun b => [bondNetdevFile b, bondBridgeNetdevFile b]) ++
    networkCfg.VLANs.map (vlanNetdevFile networkCfg)

/-! ## Address, route and section rendering -/

/-- True for an address entry hitting the switch's default branch: not one of
the tokens dhcp4, dhcp6, slaac. -/
def isStaticAddr (a : String) : Bool :=
  a != "dhcp4" && a != "dhcp6" && a != "slaac"

/-- The trailing DHCP line of processAddresses, combining the dhcp4/dhcp6
flags set by its loop: yes for both, a single family for one, absent when
neither token occurs. -/
def dhcpLine (addresses : List String) : List String :=
  if addresses.contains "dhcp4" && addresses.contains "dhcp6" then ["DHCP=yes"]
  else if addresses.contains "dhcp4" then ["DHCP=ipv4"]
  else if addresses.contains "dhcp6" then ["DHCP=ipv6"]
  else []

/-- The lines of processAddresses, in emission order: the link-local header,
one Address= line per non-token entry, the IPv6AcceptRA line, and the DHCP
line. -/
def processAddressesLines (addresses : List String) : List String :=
  (if addresses.length != 0 then ["LinkLocalAddressing=ipv6"]
   else ["LinkLocalAddressing=no", "ConfigureWithoutCarrier=yes"]) ++
  (addresses.filter isStaticAddr).map (fun a => "Address=" ++ a) ++
  (if addresses.contains "slaac" then ["IPv6AcceptRA=true"] else ["IPv6AcceptRA=false"]) ++
  dhcpLine addresses

/-- processAddresses: each emitted line followed by a newline. -/
def processAddresses (addresses : List String) : String :=
  String.join ((processAddressesLines addresses).map (fun l => l ++ "\n"))

/-- processRoutes: one Route block per route, mapping the dhcp4 and slaac
gateway tokens to their dynamically-learned placeholders. -/
def processRoutes (routes : List SystemNetworkRoute) : String :=
  String.join (routes.map (fun route =>
    "\n[Route]\n" ++
    (if route.Via = "dhcp4" then "Gateway=_dhcp4\n"
     else if route.Via = "slaac" then "Gateway=_ipv6ra\n"
     else "Gateway=" ++ route.Via ++ "\n") ++
    "Destination=" ++ route.To ++ "\n"))

/-- generateNetworkSectionContents: Domains and DNS lines from the DNS
config, NTP lines from the NTP config. -/
def generateNetworkSectionContents (dns : Option SystemNetworkDNS) (ntp : Option SystemNetworkNTP) : String :=
  (match dns with
   | none => ""
   | some d =>
     (if d.SearchDomains.length > 0 then
        "Domains=" ++ " ".intercalate d.SearchDomains ++ "\n"
      else "") ++
     String.join (d.Nameservers.map (fun ns => "DNS=" ++ ns ++ "\n"))) ++
  (match ntp with
   | none => ""
   | some n => String.join (n.Timeservers.map (fun ts => "NTP=" ++ ts ++ "\n")))

/-- generateTimesyncContents: empty when no timeservers are defined,
otherwise the FallbackNTP stanza joining the timeservers with spaces. -/
def generateTimesyncContents (ntp : SystemNetworkNTP) : String :=
  if ntp.Timeservers.length = 0 then ""
  else "[Time]\nFallbackNTP=" ++ " ".intercalate ntp.Timeservers ++ "\n"

/-! ## Bridge VLAN aggregation -/

/-- slices.Compact: collapse consecutive equal elements. -/
def compact : List Int → List Int
  | [] => []
  | [a] => [a]
  | a :: b :: rest =>
    if a = b then compact (b :: rest) else a :: compact (b :: rest)

/-- The vlanTags list generateBridgeVLANContents builds: the primary VLAN id
when nonzero, the additional tags, the IDs of VLAN entries parented to this
bridge, then slices.Sort and slices.Compact. -/
def sortedVlanTags (bridgeName : String) (specificVLAN : Int) (additionalVLANTags : List Int)
    (vlans : List SystemNetworkVLAN) : List Int :=
  let vlanTags :=
    (if specificVLAN ≠ 0 then [specificVLAN] else []) ++ additionalVLANTags ++
      ((vlans.filter (fun vlan => vlan.Parent = bridgeName)).map (fun vlan => vlan.ID))
  compact (vlanTags.insertionSort (fun a b => a ≤ b))

/-- generateBridgeVLANContents: when the aggregated tag list is non-empty, a
PVID/EgressUntagged block for a nonzero primary VLAN id followed by one
BridgeVLAN block per tag. -/
def generateBridgeVLANContents (bridgeName : String) (specificVLAN : Int)
    (additionalVLANTags : List Int) (vlans : List SystemNetworkVLAN) : String :=
  let vlanTags := sortedVlanTags bridgeName specificVLAN additionalVLANTags vlans
  if vlanTags.length > 0 then
    (if specificVLAN ≠ 0 then
       "\n[BridgeVLAN]\nPVID=" ++ toString specificVLAN ++
         "\nEgressUntagged=" ++ toString specificVLAN ++ "\n"
     else "") ++
    String.join (vlanTags.map (fun tag => "\n[BridgeVLAN]\nVLAN=" ++ toString tag ++ "\n"))
  else ""

/-- strings.Contains with a single-character pattern, on the character list
of the string. -/
def stringContainsChar (s : String) (c : Char) : Bool :=
  s.data.any (fun x => x == c)

/-- One entry's contribution to the expectsIPv4 flag of the loop in
generateLinkSectionContents: the dhcp4 token, or a non-token literal
containing a dot. -/
def addrExpectsIPv4 (a : String) : Bool :=
  a == "dhcp4" || (isStaticAddr a && stringContainsChar a '.')

/-- One entry's contribution to the expectsIPv6 flag of the loop in
generateLinkSectionContents: the dhcp6 or slaac token, or a non-token
literal containing a colon. -/
def addrExpectsIPv6 (a : String) : Bool :=
  a == "dhcp6" || a == "slaac" || (isStaticAddr a && stringContainsChar a ':')

/-- generateLinkSectionContents: RequiredForOnline=no for an empty address
list; otherwise the required family inferred from the entries (dhcp4 or a
dotted literal expects IPv4; dhcp6, slaac or a coloned literal expects IPv6). -/
def generateLinkSectionContents (addresses : List String) : String :=
  if addresses.length = 0 then "RequiredForOnline=no"
  else
    let expectsIPv4 := addresses.any addrExpectsIPv4
    let expectsIPv6 := addresses.any addrExpectsIPv6
    if expectsIPv4 && expectsIPv6 then
      "RequiredForOnline=yes\nRequiredFamilyForOnline=both"
    else if expectsIPv4 then
      "RequiredForOnline=yes\nRequiredFamilyForOnline=ipv4"
    else
      "RequiredForOnline=yes\nRequiredFamilyForOnline=ipv6"

/-! ## The .network file generator -/

/-- The 20- policy file rendered for an interface's logical device. -/
def interfaceNetworkFile (networkCfg : SystemNetworkConfig) (i : SystemNetworkInterface) : networkdConfigFile :=
  { Name := "20-" ++ i.Name ++ ".network"
    Contents :=
      "[Match]\nName=" ++ i.Name ++ "\n\n[Link]\n" ++
        generateLinkSectionContents i.Addresses ++
        "\n\n[DHCP]\nClientIdentifier=mac\nRouteMetric=100\nUseMTU=true\n\n[Network]\n" ++
        generateNetworkSectionContents networkCfg.DNS networkCfg.NTP ++
        processAddresses i.Addresses ++
        (if i.Routes.length > 0 then processRoutes i.Routes else "") }

/-- The 20- policy file binding an interface's renamed physical device into
its bridge. -/
def interfaceBridgeNetworkFile (networkCfg : SystemNetworkConfig) (i : SystemNetworkInterface) : networkdConfigFile :=
  { Name := "20-en" ++ strippedHwaddr i.Hwaddr ++ ".network"
    Contents :=
      "[Match]\nName=en" ++ strippedHwaddr i.Hwaddr ++ "\n\n[Network]\nBridge=" ++
        i.Name ++ "\nLLDP=" ++ formatBool i.LLDP ++ "\nEmitLLDP=" ++ formatBool i.LLDP ++ "\n" ++
        generateBridgeVLANContents i.Name i.VLAN i.VLANTags networkCfg.VLANs }

/-- The 21- policy file rendered for a bond's logical device. -/
def bondNetworkFile (networkCfg : SystemNetworkConfig) (b : SystemNetworkBond) : networkdConfigFile :=
  { Name := "21-" ++ b.Name ++ ".network"
    Contents :=
      "[Match]\nName=" ++ b.Name ++ "\n\n[Link]\n" ++
        generateLinkSectionContents b.Addresses ++
        "\n\n[DHCP]\nClientIdentifier=mac\nRouteMetric=100\nUseMTU=true\n\n[Network]\n" ++
        generateNetworkSectionContents networkCfg.DNS networkCfg.NTP ++
        processAddresses b.Addresses ++
        (if b.Routes.length > 0 then processRoutes b.Routes else "") }

/-- The 21- policy file binding a bond device into its bridge. -/
def bondBridgeNetworkFile (networkCfg : SystemNetworkConfig) (b : SystemNetworkBond) : networkdConfigFile :=
  { Name := "21-bn" ++ strippedHwaddr (bondMacAddr b) ++ ".network"
    Contents :=
      "[Match]\nName=bn" ++ strippedHwaddr (bondMacAddr b) ++
        "\n\n[Network]\nBridge=" ++ b.Name ++ "\n" ++
        generateBridgeVLANContents b.Name b.VLAN b.VLANTags networkCfg.VLANs }

/-- The 21- policy file binding one bond member into its bond device. -/
def bondMemberNetworkFile (b : SystemNetworkBond) (index : Nat) (member : String) : networkdConfigFile :=
  { Name := "21-bn" ++ strippedHwaddr (bondMacAddr b) ++ "-dev" ++ toString index ++ ".network"
    Contents :=
      "[Match]\nName=en" ++ strippedHwaddr member ++ "\n\n[Network]\nBond=bn" ++
        strippedHwaddr (bondMacAddr b) ++ "\nLLDP=" ++ formatBool b.LLDP ++
        "\nEmitLLDP=" ++ formatBool b.LLDP ++ "\n" }

/-- The 22- policy file asserting a VLAN's tag on the parent bridge. -/
def vlanBridgeNetworkFile (v : SystemNetworkVLAN) : networkdConfigFile :=
  { Name := "22-vl" ++ v.Name ++ ".network"
    Contents :=
      "[Match]\nName=vl" ++ v.Name ++ "\n\n[Network]\nBridge=" ++ v.Parent ++
        "\n\n[BridgeVLAN]\nVLAN=" ++ toString v.ID ++ "\nPVID=" ++ toString v.ID ++
        "\nEgressUntagged=" ++ toString v.ID ++ "\n" }

/-- The 22- policy file rendered for a VLAN's logical device. -/
def vlanNetworkFile (networkCfg : SystemNetworkConfig) (v : SystemNetworkVLAN) : networkdConfigFile :=
  { Name := "22-" ++ v.Name ++ ".network"
    Contents :=
      "[Match]\nName=" ++ v.Name ++ "\n\n[Link]\n" ++
        generateLinkSectionContents v.Addresses ++
        "\n\n[DHCP]\nClientIdentifier=mac\nRouteMetric=100\nUseMTU=true\n\n[Network]\n" ++
        generateNetworkSectionContents networkCfg.DNS networkCfg.NTP ++
        processAddresses v.Addresses ++
        (if v.Routes.length > 0 then processRoutes v.Routes else "") }

/-- generateNetworkFileContents: the two 20- files per interface, the two
21- files per bond followed by one per bond member, and the two 22- files
per VLAN, in declaration order. -/
def generateNetworkFileContents (networkCfg : SystemNetworkConfig) : List networkdConfigFile :=
  networkCfg.Interfaces.flatMap (fun i =>
    [interfaceNetworkFile networkCfg i, interfaceBridgeNetworkFile networkCfg i]) ++
  networkCfg.Bonds.flatMap (fun b =>
    [bondNetworkFile networkCfg b, bondBridgeNetworkFile networkCfg b] ++
      b.Members.enum.map (fun p => bondMemberNetworkFile b p.1 p.2)) ++
  networkCfg.VLANs.flatMap (fun v =>
    [vlanBridgeNetworkFile v, vlanNetworkFile networkCfg v])

/-! ## The artifact writer (generateNetworkConfiguration) -/

/-- The path constant SystemdTimesyncConfigFile, declared elsewhere in the
repository; its value is irrelevant, only its identity as a file name. -/
def SystemdTimesyncConfigFile : String :=
  "/run/systemd/timesyncd.conf"

/-- One file-system action the artifact writer attempts. -/
inductive FSOp where
  | removeAll
  | mkdir
  | writeFile (name : String)
  | removeTimesync
deriving DecidableEq

/-- The file-system environment: the outcome each call would produce. -/
structure FSEnv where
  removeAllResult : Except String Unit
  mkdirResult : Except String Unit
  writeFileResult : String → String → Except String Unit
  removeResult : Except String Unit

/-- Write a list of config files in order, stopping at the first error, and
record the attempted writes. -/
def writeFiles (env : FSEnv) : List networkdConfigFile → Except String Unit × List FSOp
  | [] => (Except.ok (), [])
  | f :: rest =>
    match env.writeFileResult f.Name f.Contents with
    | Except.error e => (Except.error e, [FSOp.writeFile f.Name])
    | Except.ok _ =>
      let next := writeFiles env rest
      (next.1, FSOp.writeFile f.Name :: next.2)

/-- The phase of generateNetworkConfiguration before the timesync handling:
remove the configuration directory, recreate it, write the .link, .netdev
and .network files in order, stopping at the first error. -/
def writeAllConfigFiles (env : FSEnv) (networkCfg : SystemNetworkConfig) : Except String Unit × List FSOp :=
  match env.removeAllResult with
  | Except.error e => (Except.error e, [FSOp.removeAll])
  | Except.ok _ =>
    match env.mkdirResult with
    | Except.error e => (Except.error e, [FSOp.removeAll, FSOp.mkdir])
    | Except.ok _ =>
      let files := generateLinkFileContents networkCfg ++ generateNetdevFileContents networkCfg ++
        generateNetworkFileContents networkCfg
      let written := writeFiles env files
      (written.1, FSOp.removeAll :: FSOp.mkdir :: written.2)

/-- generateNetworkConfiguration: the write phase, then the timesyncd
configuration is written when timeservers are defined (a write failure is
fatal); when there is no NTP configuration or it renders empty, the old
timesync file is removed with the removal's outcome discarded. -/
def generateNetworkConfiguration (env : FSEnv) (networkCfg : SystemNetworkConfig) : Except String Unit × List FSOp :=
  match writeAllConfigFiles env networkCfg with
  | (Except.error e, tr) => (Except.error e, tr)
  | (Except.ok _, tr) =>
    match networkCfg.NTP with
    | some n =>
      let ntpCfg := generateTimesyncContents n
      if ntpCfg ≠ "" then
        match env.writeFileResult SystemdTimesyncConfigFile ntpCfg with
        | Except.error e => (Except.error e, tr ++ [FSOp.writeFile SystemdTimesyncConfigFile])
        | Except.ok _ => (Except.ok (), tr ++ [FSOp.writeFile SystemdTimesyncConfigFile])
      else
        (Except.ok (), tr ++ [FSOp.removeTimesync])
    | none => (Except.ok (), tr ++ [FSOp.removeTimesync])

/-! ## The apply orchestrator (ApplyNetworkConfiguration) -/

/-- The hostname derivation at the top of ApplyNetworkConfiguration: the
DNS Hostname with the Domain appended when both are non-empty, the empty
string when the DNS config is absent or its Hostname is empty. -/
def deriveHostname (dns : Option SystemNetworkDNS) : String :=
  match dns with
  | none => ""
  | some d =>
    if d.Hostname ≠ "" then
      if d.Domain ≠ "" then d.Hostname ++ "." ++ d.Domain else d.Hostname
    else ""

/-- One externally observable step the orchestrator attempts. -/
inductive ApplyStep where
  | setHostname (hostname : String)
  | updateEnvironment
  | generateNetworkConfiguration
  | waitForUdevInterfaceRename
  | restartUnit (unitName : String)
  | waitForNetworkOnline
deriving DecidableEq

/-- The orchestrator's environment: the outcome each step would produce. -/
structure ApplyEnv where
  setHostnameResult : String → Except String Unit
  updateEnvironmentResult : Except String Unit
  generateResult : Except String Unit
  renameWaitResult : Except String Unit
  restartUnitResult : String → Except String Unit
  onlineWaitResult : Except String Unit

/-- ApplyNetworkConfiguration: fail at once on a nil config, otherwise run
hostname, proxy environment, artifact generation, rename wait, the two
service restarts and the online wait in order, stopping at the first error;
the trace records the steps attempted, in order. -/
def ApplyNetworkConfiguration (env : ApplyEnv) (networkCfg : Option SystemNetworkConfig) :
    Except String Unit × List ApplyStep :=
  match networkCfg with
  | none => (Except.error "no network configuration provided", [])
  | some cfg =>
    let hostname := deriveHostname cfg.DNS
    match env.setHostnameResult hostname with
    | Except.error e => (Except.error e, [ApplyStep.setHostname hostname])
    | Except.ok _ =>
      match env.updateEnvironmentResult with
      | Except.error e =>
        (Except.error e, [ApplyStep.setHostname hostname, ApplyStep.updateEnvironment])
      | Except.ok _ =>
        match env.generateResult with
        | Except.error e =>
          (Except.error e, [ApplyStep.setHostname hostname, ApplyStep.updateEnvironment,
            ApplyStep.generateNetworkConfiguration])
        | Except.ok _ =>
          match env.renameWaitResult with
          | Except.error e =>
            (Except.error e, [ApplyStep.setHostname hostname, ApplyStep.updateEnvironment,
              ApplyStep.generateNetworkConfiguration, ApplyStep.waitForUdevInterfaceRename])
          | Except.ok _ =>
            match env.restartUnitResult "systemd-networkd" with
            | Except.error e =>
              (Except.error e, [ApplyStep.setHostname hostname, ApplyStep.updateEnvironment,
                ApplyStep.generateNetworkConfiguration, ApplyStep.waitForUdevInterfaceRename,
                ApplyStep.restartUnit "systemd-networkd"])
            | Except.ok _ =>
              match env.restartUnitResult "systemd-timesyncd" with
              | Except.error e =>
                (Except.error e, [ApplyStep.setHostname hostname, ApplyStep.updateEnvironment,
                  ApplyStep.generateNetworkConfiguration, ApplyStep.waitForUdevInterfaceRename,
                  ApplyStep.restartUnit "systemd-networkd", ApplyStep.restartUnit "systemd-timesyncd"])
              | Except.ok _ =>
                (env.onlineWaitResult, [ApplyStep.setHostname hostname, ApplyStep.updateEnvironment,
                  ApplyStep.generateNetworkConfiguration, ApplyStep.waitForUdevInterfaceRename,
                  ApplyStep.restartUnit "systemd-networkd", ApplyStep.restartUnit "systemd-timesyncd",
                  ApplyStep.waitForNetworkOnline])

/-- The full step list of a successful apply, in order. -/
def applyStepOrder (cfg : SystemNetworkConfig) : List ApplyStep :=
  [ApplyStep.setHostname (deriveHostname cfg.DNS), ApplyStep.updateEnvironment,
    ApplyStep.generateNetworkConfiguration, ApplyStep.waitForUdevInterfaceRename,
    ApplyStep.restartUnit "systemd-networkd", ApplyStep.restartUnit "systemd-timesyncd",
    ApplyStep.waitForNetworkOnline]

/-! ## The rename convergence waiter (waitForUdevInterfaceRename) -/

/-- One poll cycle's environment for the rename waiter: the outcomes of the
udevadm trigger and settle calls, and whether the journalctl kernel-log
search for a rename event exits successfully. -/
structure UdevEnv where
  triggerResult : Except String Unit
  settleResult : Except String Unit
  journalMatch : Bool

/-- waitForUdevInterfaceRename: each cycle first checks the deadline (fuel),
then runs trigger and settle, propagating either error at once; a journal
match returns success, otherwise the loop sleeps 500 ms and retries the
next cycle. The second argument is the current cycle index. -/
def waitForUdevInterfaceRename (env : Nat → UdevEnv) : Nat → Nat → Except String Unit
  | 0, _ => Except.error "timed out waiting for udev to rename interface(s)"
  | fuel + 1, t =>
    match (env t).triggerResult with
    | Except.error e => Except.error e
    | Except.ok _ =>
      match (env t).settleResult with
      | Except.error e => Except.error e
      | Except.ok _ =>
        if (env t).journalMatch then Except.ok ()
        else waitForUdevInterfaceRename env fuel (t + 1)

/-! ## The online convergence waiter (waitForNetworkOnline) -/

/-- One poll cycle's environment for the online waiter: per device name, the
output of the networkctl status query (none = command error), and the list
of address strings the ip-address query's regex would extract (none =
command error). -/
structure NetEnv where
  statusOutput : String → Option String
  ipAddresses : String → Option (List String)

/-- List-level substring search, the semantics of strings.Contains. -/
def charListHasPrefix : List Char → List Char → Bool
  | [], _ => true
  | _ :: _, [] => false
  | a :: as, b :: bs => a == b && charListHasPrefix as bs

/-- strings.Contains output sub: some suffix of output starts with sub. -/
def stringContains (s sub : String) : Bool :=
  go sub.data s.data
where
  go (pat : List Char) : List Char → Bool
    | [] => charListHasPrefix pat []
    | c :: rest => charListHasPrefix pat (c :: rest) || go pat rest

/-- strings.HasPrefix, on the character lists of the strings. -/
def stringHasPrefix (s pre : String) : Bool :=
  charListHasPrefix pre.data s.data

/-- The isOnline closure: false when the networkctl status query errors,
otherwise whether its output contains the online marker. -/
def isOnline (env : NetEnv) (name : String) : Bool :=
  match env.statusOutput name with
  | none => false
  | some output => stringContains output "Online state: online"

/-- The getNumberOfIPs closure: -1 when the ip-address query errors,
otherwise the number of extracted addresses not prefixed fe80:. -/
def getNumberOfIPs (env : NetEnv) (name : String) : Int :=
  match env.ipAddresses name with
  | none => -1
  | some addrs => ((addrs.filter (fun a => !(stringHasPrefix a "fe80:"))).length : Int)

/-- Go map insertion over an association list: overwrite the entry with the
same key, or append a new one. -/
def mapInsert (m : List (String × Nat)) (k : String) (v : Nat) : List (String × Nat) :=
  if m.any (fun p => p.1 == k) then
    m.map (fun p => if p.1 == k then (k, v) else p)
  else
    m ++ [(k, v)]

/-- The devicesToCheck map: every interface, bond and VLAN declaring at
least one address entry, mapped to its declared address count. -/
def devicesToCheck (networkCfg : SystemNetworkConfig) : List (String × Nat) :=
  let m1 := networkCfg.Interfaces.foldl (fun m i =>
    if i.Addresses.length = 0 then m else mapInsert m i.Name i.Addresses.length) []
  let m2 := networkCfg.Bonds.foldl (fun m b =>
    if b.Addresses.length = 0 then m else mapInsert m b.Name b.Addresses.length) m1
  networkCfg.VLANs.foldl (fun m v =>
    if v.Addresses.length = 0 then m else mapInsert m v.Name v.Addresses.length) m2

/-- One poll cycle's check: every tracked device reports online and its
observed non-link-local address count equals its declared count. -/
def allDevicesOnline (env : NetEnv) (devices : List (String × Nat)) : Bool :=
  devices.all (fun p => isOnline env p.1 && getNumberOfIPs env p.1 == (p.2 : Int))

/-- The polling loop of waitForNetworkOnline: each cycle first checks the
deadline (fuel), then polls every tracked device, returning success when
all pass and otherwise sleeping 500 ms before the next cycle. -/
def onlineWaitLoop (env : Nat → NetEnv) (devices : List (String × Nat)) : Nat → Nat → Except String Unit
  | 0, _ => Except.error "timed out waiting for network to come online"
  | fuel + 1, t =>
    if allDevicesOnline (env t) devices then Except.ok ()
    else onlineWaitLoop env devices fuel (t + 1)

/-- waitForNetworkOnline: build the devicesToCheck map and poll until all
tracked devices are online with their expected address counts, or the
deadline (fuel poll cycles) elapses. -/
def waitForNetworkOnline (env : Nat → NetEnv) (networkCfg : SystemNetworkConfig) (fuel : Nat) :
    Except String Unit :=
  onlineWaitLoop env (devicesToCheck networkCfg) fuel 0

/-! ## Definitions used only to state the claims -/

/-- Follows the claim's words rather than the source: a VLAN's parent MAC
resolved by name lookup against Interfaces then Bonds, the first match
winning (a matching bond contributing its override or first member's MAC),
defaulting to the empty string when nothing matches. -/
def specVlanParentMAC (networkCfg : SystemNetworkConfig) (parent : String) : String :=
  match networkCfg.Interfaces.find? (fun i => i.Name = parent) with
  | some i => i.Hwaddr
  | none =>
    match networkCfg.Bonds.find? (fun b => b.Name = parent) with
    | some b => bondMacAddr b
    | none => ""

/-- The outcome the environment holds for the orchestrator step with the
given index, in the order the source runs the steps. -/
def stepResult (env : ApplyEnv) (cfg : SystemNetworkConfig) : Nat → Except String Unit
  | 0 => env.setHostnameResult (deriveHostname cfg.DNS)
  | 1 => env.updateEnvironmentResult
  | 2 => env.generateResult
  | 3 => env.renameWaitResult
  | 4 => env.restartUnitResult "systemd-networkd"
  | 5 => env.restartUnitResult "systemd-timesyncd"
  | _ => env.onlineWaitResult

/-- All device names declared by a config, in declaration order; the spec's
data-model invariant is that these are unique. -/
def namesOfConfig (networkCfg : SystemNetworkConfig) : List String :=
  networkCfg.Interfaces.map (fun i => i.Name) ++
    networkCfg.Bonds.map (fun b => b.Name) ++
    networkCfg.VLANs.map (fun v => v.Name)

/-! ## Lemmas about compact and sortedVlanTags -/

theorem mem_compact (a : Int) : ∀ (l : List Int), a ∈ compact l ↔ a ∈ l
  | [] => Iff.rfl
  | [b] => Iff.rfl
  | b :: c :: rest => by
    by_cases h : b = c
    · rw [compact, if_pos h, mem_compact a (c :: rest)]
      simp [h]
    · rw [compact, if_neg h]
      simp [mem_compact a (c :: rest)]

theorem compact_sorted : ∀ {l : List Int}, l.Sorted (· ≤ ·) → (compact l).Sorted (· < ·)
  | [], _ => by simp [compact]
  | [a], _ => by simp [compact]
  | a :: b :: rest, h => by
    rw [List.sorted_cons] at h
    obtain ⟨ha, hb⟩ := h
    by_cases hab : a = b
    · rw [compact, if_pos hab]
      exact compact_sorted hb
    · rw [compact, if_neg hab]
      rw [List.sorted_cons]
      refine ⟨?_, compact_sorted hb⟩
      intro c hc
      rw [mem_compact] at hc
      have hab2 : a < b := lt_of_le_of_ne (ha b (by simp)) hab
      rcases List.mem_cons.mp hc with rfl | hc2
      · exact hab2
      · rw [List.sorted_cons] at hb
        exact lt_of_lt_of_le hab2 (hb.1 c hc2)

theorem sortedVlanTags_sorted (bridgeName : String) (specificVLAN : Int)
    (additionalVLANTags : List Int) (vlans : List SystemNetworkVLAN) :
    (sortedVlanTags bridgeName specificVLAN additionalVLANTags vlans).Sorted (· < ·) :=
  compact_sorted (List.sorted_insertionSort _ _)

theorem mem_sortedVlanTags (bridgeName : String) (specificVLAN : Int)
    (additionalVLANTags : List Int) (vlans : List SystemNetworkVLAN) (x : Int) :
    x ∈ sortedVlanTags bridgeName specificVLAN additionalVLANTags vlans ↔
      (specificVLAN ≠ 0 ∧ x = specificVLAN) ∨ x ∈ additionalVLANTags ∨
        ∃ vl ∈ vlans, vl.Parent = bridgeName ∧ vl.ID = x := by
  unfold sortedVlanTags
  rw [mem_compact, (List.perm_insertionSort _ _).mem_iff]
  by_cases h : specificVLAN ≠ 0 <;>
    simp [h, List.mem_filter, and_comm, eq_comm, and_assoc]

theorem sortedVlanTags_congr (bridgeName : String) (specificVLAN : Int)
    (tags tags2 : List Int) (vlans : List SystemNetworkVLAN)
    (h : ∀ x, x ∈ tags ↔ x ∈ tags2) :
    sortedVlanTags bridgeName specificVLAN tags vlans =
      sortedVlanTags bridgeName specificVLAN tags2 vlans := by
  haveI : IsAntisymm Int (· < ·) := ⟨fun a b h1 h2 => absurd h2 (lt_asymm h1)⟩
  have s1 := sortedVlanTags_sorted bridgeName specificVLAN tags vlans
  have s2 := sortedVlanTags_sorted bridgeName specificVLAN tags2 vlans
  refine List.eq_of_perm_of_sorted ?_ s1 s2
  rw [List.perm_ext_iff_of_nodup s1.nodup s2.nodup]
  intro a
  rw [mem_sortedVlanTags, mem_sortedVlanTags, h a]

/-- C3: for every bridge device, the rendered BridgeVLAN tag set equals the
union of the primary VLAN id (when nonzero), the additional tag list, and
the IDs of VLAN entries parented to the bridge, sorted ascending and
deduplicated; tag lists with the same members render identically, so
permuting or duplicating input entries never changes the output; a nonzero
primary id additionally renders a PVID/EgressUntagged block; and the spec's
example (primary 20, additional tags 30, 20, 10, one parented VLAN with ID
30) renders exactly the tags 10, 20, 30, each once, ascending. -/
theorem generateBridgeVLANContents_spec :
    (∀ (bridgeName : String) (specificVLAN : Int) (additionalVLANTags : List Int)
        (vlans : List SystemNetworkVLAN),
      (sortedVlanTags bridgeName specificVLAN additionalVLANTags vlans).Sorted (· < ·) ∧
      (∀ x : Int, x ∈ sortedVlanTags bridgeName specificVLAN additionalVLANTags vlans ↔
        (specificVLAN ≠ 0 ∧ x = specificVLAN) ∨ x ∈ additionalVLANTags ∨
          ∃ vl ∈ vlans, vl.Parent = bridgeName ∧ vl.ID = x)) ∧
    (∀ (bridgeName : String) (specificVLAN : Int) (tags tags2 : List Int)
        (vlans : List SystemNetworkVLAN),
      (∀ x, x ∈ tags ↔ x ∈ tags2) →
        generateBridgeVLANContents bridgeName specificVLAN tags vlans =
          generateBridgeVLANContents bridgeName specificVLAN tags2 vlans) ∧
    (∀ (bridgeName : String) (specificVLAN : Int) (tags : List Int)
        (vlans : List SystemNetworkVLAN),
      specificVLAN ≠ 0 →
        generateBridgeVLANContents bridgeName specificVLAN tags vlans =
          "\n[BridgeVLAN]\nPVID=" ++ toString specificVLAN ++ "\nEgressUntagged=" ++
            toString specificVLAN ++ "\n" ++
            String.join ((sortedVlanTags bridgeName specificVLAN tags vlans).map
              (fun tag => "\n[BridgeVLAN]\nVLAN=" ++ toString tag ++ "\n"))) ∧
    sortedVlanTags "br0" 20 [30, 20, 10] [⟨"vlan30", "br0", 30, 0, [], []⟩] = [10, 20, 30] ∧
    generateBridgeVLANContents "br0" 20 [30, 20, 10] [⟨"vlan30", "br0", 30, 0, [], []⟩] =
      "\n[BridgeVLAN]\nPVID=20\nEgressUntagged=20\n" ++
        "\n[BridgeVLAN]\nVLAN=10\n\n[BridgeVLAN]\nVLAN=20\n\n[BridgeVLAN]\nVLAN=30\n" := by
  refine ⟨fun bridgeName specificVLAN additionalVLANTags vlans =>
    ⟨sortedVlanTags_sorted _ _ _ _, mem_sortedVlanTags _ _ _ _⟩, ?_, ?_, by decide, by decide⟩
  · intro bridgeName specificVLAN tags tags2 vlans h
    unfold generateBridgeVLANContents
    rw [sortedVlanTags_congr bridgeName specificVLAN tags tags2 vlans h]
  · intro bridgeName specificVLAN tags vlans h
    have hmem : specificVLAN ∈ sortedVlanTags bridgeName specificVLAN tags vlans := by
      rw [mem_sortedVlanTags]
      exact Or.inl ⟨h, rfl⟩
    unfold generateBridgeVLANContents
    rw [if_pos (List.length_pos.mpr (List.ne_nil_of_mem hmem)), if_pos h]

/-! ## Lemmas about generateLinkFileContents -/

theorem interfaceLinkFile_name_data (i : SystemNetworkInterface) :
    (interfaceLinkFile i).Name.data =
      '0' :: '0' :: '-' :: 'e' :: 'n' :: ((strippedHwaddr i.Hwaddr).data ++ ".link".data) := by
  simp [interfaceLinkFile, String.data_append]

theorem bondMemberLinkFile_name_data (member : String) :
    (bondMemberLinkFile member).Name.data =
      '0' :: '1' :: '-' :: 'e' :: 'n' :: ((strippedHwaddr member).data ++ ".link".data) := by
  simp [bondMemberLinkFile, String.data_append]

theorem zeroPrefix_interfaceLinkFile (i : SystemNetworkInterface) :
    "00-".data <+: (interfaceLinkFile i).Name.data := by
  rw [interfaceLinkFile_name_data]
  exact ⟨'e' :: 'n' :: ((strippedHwaddr i.Hwaddr).data ++ ".link".data), rfl⟩

theorem not_zeroPrefix_bondMemberLinkFile (member : String) :
    ¬ ("00-".data <+: (bondMemberLinkFile member).Name.data) := by
  rw [bondMemberLinkFile_name_data]
  intro h
  rw [show "00-".data = ['0', '0', '-'] from rfl, List.cons_prefix_cons] at h
  rw [List.cons_prefix_cons] at h
  exact absurd h.2.1 (by decide)

/-- C7: the synthesizer's 00-prefixed artifacts are exactly one per
interface, matching on the interface's permanent MAC, binding the device
name en followed by the lowercase colon-stripped MAC, and emitting an empty
NamePolicy; Hwaddr AA:BB:CC:DD:EE:FF yields device name enaabbccddeeff. -/
theorem generateLinkFileContents_spec :
    (∀ networkCfg : SystemNetworkConfig,
      (generateLinkFileContents networkCfg).filter
          (fun f => decide ("00-".data <+: f.Name.data)) =
        networkCfg.Interfaces.map (fun i =>
          { Name := "00-en" ++ strippedHwaddr i.Hwaddr ++ ".link"
            Contents := "[Match]\nPermanentMACAddress=" ++ i.Hwaddr ++
              "\n\n[Link]\nNamePolicy=\nName=en" ++ strippedHwaddr i.Hwaddr ++ "\n" })) ∧
    interfaceLinkFile ⟨"br0", "AA:BB:CC:DD:EE:FF", 0, [], [], false, 0, []⟩ =
      ⟨"00-enaabbccddeeff.link",
       "[Match]\nPermanentMACAddress=AA:BB:CC:DD:EE:FF\n\n[Link]\nNamePolicy=\nName=enaabbccddeeff\n"⟩ ∧
    strippedHwaddr "AA:BB:CC:DD:EE:FF" = "aabbccddeeff" := by
  refine ⟨?_, by decide, by decide⟩
  intro networkCfg
  unfold generateLinkFileContents
  rw [List.filter_append]
  have h1 : (networkCfg.Interfaces.map interfaceLinkFile).filter
      (fun f => decide ("00-".data <+: f.Name.data)) =
      networkCfg.Interfaces.map interfaceLinkFile := by
    rw [List.filter_eq_self]
    intro f hf
    obtain ⟨i, hi, rfl⟩ := List.mem_map.mp hf
    simpa using zeroPrefix_interfaceLinkFile i
  have h2 : (networkCfg.Bonds.flatMap (fun b => b.Members.map bondMemberLinkFile)).filter
      (fun f => decide ("00-".data <+: f.Name.data)) = [] := by
    rw [List.filter_eq_nil_iff]
    intro f hf
    rw [List.mem_flatMap] at hf
    obtain ⟨b, hb, hf⟩ := hf
    obtain ⟨m, hm, rfl⟩ := List.mem_map.mp hf
    simpa using not_zeroPrefix_bondMemberLinkFile m
  rw [h1, h2, List.append_nil]
  rfl

/-- C4: a Bond's rendering MAC is its explicit Hwaddr override when
non-empty and otherwise its first member's MAC (the spec's example bond
renders both its bond and bridge netdev devices with aa:bb:cc:dd:ee:ff);
and under the data model's unique-names invariant a VLAN's parent MAC is
resolved by name lookup against Interfaces then Bonds with the first match
winning, defaulting to the empty string when nothing matches. -/
theorem bondVlanMacDerivation_spec :
    (∀ b : SystemNetworkBond, b.Hwaddr ≠ "" → bondMacAddr b = b.Hwaddr) ∧
    (∀ (b : SystemNetworkBond) (m : String) (ms : List String),
      b.Hwaddr = "" → b.Members = m :: ms → bondMacAddr b = m) ∧
    bondNetdevFile ⟨"bond0", "", "802.3ad", 0, [], [], false, 0, [],
        ["aa:bb:cc:dd:ee:ff", "11:22:33:44:55:66"]⟩ =
      ⟨"11-bnaabbccddeeff.netdev",
       "[NetDev]\nName=bnaabbccddeeff\nKind=bond\nMACAddress=aa:bb:cc:dd:ee:ff\n\n\n[Bond]\nMode=802.3ad\n"⟩ ∧
    bondBridgeNetdevFile ⟨"bond0", "", "802.3ad", 0, [], [], false, 0, [],
        ["aa:bb:cc:dd:ee:ff", "11:22:33:44:55:66"]⟩ =
      ⟨"11-braabbccddeeff.netdev",
       "[NetDev]\nName=bond0\nKind=bridge\nMACAddress=aa:bb:cc:dd:ee:ff\n\n\n[Bridge]\nVLANFiltering=true\n"⟩ ∧
    (∀ (networkCfg : SystemNetworkConfig) (parent : String),
      (∀ i ∈ networkCfg.Interfaces, ∀ b ∈ networkCfg.Bonds, i.Name ≠ b.Name) →
        vlanParentMAC networkCfg parent = specVlanParentMAC networkCfg parent) ∧
    (∀ (networkCfg : SystemNetworkConfig) (parent : String),
      (∀ i ∈ networkCfg.Interfaces, i.Name ≠ parent) →
      (∀ b ∈ networkCfg.Bonds, b.Name ≠ parent) →
        vlanParentMAC networkCfg parent = "") := by
  refine ⟨?_, ?_, by decide, by decide, ?_, ?_⟩
  · intro b hb
    unfold bondMacAddr
    rw [if_neg hb]
  · intro b m ms hb hm
    unfold bondMacAddr
    rw [if_pos hb, hm]
    rfl
  · intro networkCfg parent hdisj
    unfold vlanParentMAC specVlanParentMAC
    cases hI : networkCfg.Interfaces.find? (fun i => i.Name = parent) with
    | none =>
      simp only [hI, if_pos]
      cases hB : networkCfg.Bonds.find? (fun b => b.Name = parent) with
      | none => simp
      | some b =>
        simp only [bondMacAddr]
        by_cases hbh : b.Hwaddr = "" <;> simp [hbh]
    | some i =>
      have hiMem := List.mem_of_find?_eq_some hI
      have hiName : i.Name = parent := by simpa using List.find?_some hI
      by_cases hH : i.Hwaddr = ""
      · have hB : networkCfg.Bonds.find? (fun b => b.Name = parent) = none := by
          rw [List.find?_eq_none]
          intro b hb
          simp only [decide_eq_true_eq]
          intro hbn
          exact hdisj i hiMem b hb (hiName.trans hbn.symm)
        simp [hI, hH, hB]
      · simp [hI, hH]
  · intro networkCfg parent hInt hBond
    have hI : networkCfg.Interfaces.find? (fun i => i.Name = parent) = none := by
      rw [List.find?_eq_none]
      intro i hi
      simpa using hInt i hi
    have hB : networkCfg.Bonds.find? (fun b => b.Name = parent) = none := by
      rw [List.find?_eq_none]
      intro b hb
      simpa using hBond b hb
    simp [vlanParentMAC, hI, hB]

/-! ## Lemmas about processAddresses -/

theorem addressLine_data (a : String) :
    ("Address=" ++ a).data =
      'A' :: 'd' :: 'd' :: 'r' :: 'e' :: 's' :: 's' :: '=' :: a.data := by
  simp [String.data_append]

theorem not_dhcpPrefix_addressLine (a : String) :
    ¬ ("DHCP=".data <+: ("Address=" ++ a).data) := by
  rw [addressLine_data]
  intro h
  rw [show "DHCP=".data = ['D', 'H', 'C', 'P', '='] from rfl, List.cons_prefix_cons] at h
  exact absurd h.1 (by decide)

theorem dhcpPrefix_mem_dhcpLine (addresses : List String) (l : String)
    (hl : l ∈ processAddressesLines addresses) (hpre : "DHCP=".data <+: l.data) :
    l ∈ dhcpLine addresses := by
  unfold processAddressesLines at hl
  simp only [List.mem_append] at hl
  rcases hl with ((hl | hl) | hl) | hl
  · by_cases hlen : (addresses.length != 0) = true
    · rw [if_pos hlen] at hl
      simp only [List.mem_singleton] at hl
      subst hl
      exact absurd hpre (by decide)
    · rw [if_neg hlen] at hl
      rcases List.mem_pair.mp hl with rfl | rfl <;> exact absurd hpre (by decide)
  · obtain ⟨a, _, rfl⟩ := List.mem_map.mp hl
    exact absurd hpre (not_dhcpPrefix_addressLine a)
  · by_cases hs : addresses.contains "slaac" = true
    · rw [if_pos hs] at hl
      simp only [List.mem_singleton] at hl
      subst hl
      exact absurd hpre (by decide)
    · rw [if_neg hs] at hl
      simp only [List.mem_singleton] at hl
      subst hl
      exact absurd hpre (by decide)
  · exact hl

/-- C5: the rendered network policy carries DHCP=ipv4 when only the dhcp4
token is present, DHCP=ipv6 when only dhcp6 is present, DHCP=yes when both
are, and no DHCP= line at all when neither is; every non-token entry is
emitted verbatim as an Address= assignment; and the slaac token enables
IPv6 router-advertisement acceptance. -/
theorem processAddresses_spec :
    (∀ (addresses : List String) (l : String), l ∈ processAddressesLines addresses →
      "DHCP=".data <+: l.data → l ∈ dhcpLine addresses) ∧
    (∀ addresses : List String, "dhcp4" ∈ addresses → "dhcp6" ∉ addresses →
      dhcpLine addresses = ["DHCP=ipv4"] ∧ "DHCP=ipv4" ∈ processAddressesLines addresses) ∧
    (∀ addresses : List String, "dhcp4" ∉ addresses → "dhcp6" ∈ addresses →
      dhcpLine addresses = ["DHCP=ipv6"] ∧ "DHCP=ipv6" ∈ processAddressesLines addresses) ∧
    (∀ addresses : List String, "dhcp4" ∈ addresses → "dhcp6" ∈ addresses →
      dhcpLine addresses = ["DHCP=yes"] ∧ "DHCP=yes" ∈ processAddressesLines addresses) ∧
    (∀ addresses : List String, "dhcp4" ∉ addresses → "dhcp6" ∉ addresses →
      ∀ l ∈ processAddressesLines addresses, ¬ ("DHCP=".data <+: l.data)) ∧
    (∀ (addresses : List String) (a : String), a ∈ addresses → isStaticAddr a = true →
      ("Address=" ++ a) ∈ processAddressesLines addresses) ∧
    (∀ addresses : List String, "slaac" ∈ addresses →
      "IPv6AcceptRA=true" ∈ processAddressesLines addresses) ∧
    processAddresses ["dhcp4"] = "LinkLocalAddressing=ipv6\nIPv6AcceptRA=false\nDHCP=ipv4\n" ∧
    processAddresses ["dhcp6"] = "LinkLocalAddressing=ipv6\nIPv6AcceptRA=false\nDHCP=ipv6\n" ∧
    processAddresses ["dhcp4", "dhcp6"] =
      "LinkLocalAddressing=ipv6\nIPv6AcceptRA=false\nDHCP=yes\n" ∧
    processAddresses [] =
      "LinkLocalAddressing=no\nConfigureWithoutCarrier=yes\nIPv6AcceptRA=false\n" := by
  have hline : ∀ addresses : List String, ∀ s : String, dhcpLine addresses = [s] →
      s ∈ processAddressesLines addresses := by
    intro addresses s hs
    unfold processAddressesLines
    simp only [List.mem_append]
    exact Or.inr (by rw [hs]; exact List.mem_singleton_self s)
  refine ⟨dhcpPrefix_mem_dhcpLine, ?_, ?_, ?_, ?_, ?_, ?_,
    by decide, by decide, by decide, by decide⟩
  · intro addresses h4 h6
    have h : dhcpLine addresses = ["DHCP=ipv4"] := by simp [dhcpLine, h4, h6]
    exact ⟨h, hline addresses _ h⟩
  · intro addresses h4 h6
    have h : dhcpLine addresses = ["DHCP=ipv6"] := by simp [dhcpLine, h4, h6]
    exact ⟨h, hline addresses _ h⟩
  · intro addresses h4 h6
    have h : dhcpLine addresses = ["DHCP=yes"] := by simp [dhcpLine, h4, h6]
    exact ⟨h, hline addresses _ h⟩
  · intro addresses h4 h6 l hl hpre
    have hmem := dhcpPrefix_mem_dhcpLine addresses l hl hpre
    have h : dhcpLine addresses = [] := by simp [dhcpLine, h4, h6]
    rw [h] at hmem
    exact absurd hmem (List.not_mem_nil l)
  · intro addresses a ha hstat
    unfold processAddressesLines
    simp only [List.mem_append]
    exact Or.inl (Or.inl (Or.inr (List.mem_map.mpr ⟨a, List.mem_filter.mpr ⟨ha, hstat⟩, rfl⟩)))
  · intro addresses hslaac
    unfold processAddressesLines
    simp only [List.mem_append]
    refine Or.inl (Or.inr ?_)
    have hs : addresses.contains "slaac" = true := by simpa using hslaac
    rw [if_pos hs]
    exact List.mem_singleton_self _

/-- C6: the rendered link section infers the required online address family
from the families present in the address list: dhcp4 alone renders ipv4,
slaac alone renders ipv6, dhcp4 with slaac renders both, an empty list
renders RequiredForOnline=no, and a non-token literal counts as IPv4 when
it contains a dot and as IPv6 when it contains a colon. -/
theorem generateLinkSectionContents_spec :
    generateLinkSectionContents ["dhcp4"] =
      "RequiredForOnline=yes\nRequiredFamilyForOnline=ipv4" ∧
    generateLinkSectionContents ["slaac"] =
      "RequiredForOnline=yes\nRequiredFamilyForOnline=ipv6" ∧
    generateLinkSectionContents ["dhcp4", "slaac"] =
      "RequiredForOnline=yes\nRequiredFamilyForOnline=both" ∧
    generateLinkSectionContents [] = "RequiredForOnline=no" ∧
    (∀ a : String, isStaticAddr a = true →
      addrExpectsIPv4 a = stringContainsChar a '.' ∧
      addrExpectsIPv6 a = stringContainsChar a ':') ∧
    (∀ addresses : List String, addresses.length ≠ 0 →
      (generateLinkSectionContents addresses =
          "RequiredForOnline=yes\nRequiredFamilyForOnline=both" ↔
        addresses.any addrExpectsIPv4 = true ∧ addresses.any addrExpectsIPv6 = true)) := by
  refine ⟨by decide, by decide, by decide, by decide, ?_, ?_⟩
  · intro a hstat
    have h4 : (a == "dhcp4") = false := by
      unfold isStaticAddr at hstat
      rcases Bool.and_eq_true_iff.mp hstat with ⟨h, -⟩
      rcases Bool.and_eq_true_iff.mp h with ⟨h1, -⟩
      simpa [bne] using h1
    have h6 : (a == "dhcp6") = false := by
      unfold isStaticAddr at hstat
      rcases Bool.and_eq_true_iff.mp hstat with ⟨h, -⟩
      rcases Bool.and_eq_true_iff.mp h with ⟨-, h2⟩
      simpa [bne] using h2
    have hs : (a == "slaac") = false := by
      unfold isStaticAddr at hstat
      rcases Bool.and_eq_true_iff.mp hstat with ⟨-, h3⟩
      simpa [bne] using h3
    constructor
    · simp [addrExpectsIPv4, h4, hstat]
    · simp [addrExpectsIPv6, h4, h6, hs, hstat]
  · intro addresses hlen
    unfold generateLinkSectionContents
    rw [if_neg hlen]
    by_cases h4 : addresses.any addrExpectsIPv4 = true <;>
      by_cases h6 : addresses.any addrExpectsIPv6 = true
    · simp [h4, h6]
    · simp only [Bool.not_eq_true] at h6
      simp [h4, h6]
    · simp only [Bool.not_eq_true] at h4
      simp [h4, h6]
    · simp only [Bool.not_eq_true] at h4 h6
      simp [h4, h6]

/-- C9: the target hostname is derived only from a non-empty DNS Hostname;
the Domain is appended (as Hostname.Domain) only when both Hostname and
Domain are non-empty; a DNS config with an empty Hostname but a non-empty
Domain still yields the empty hostname, silently ignoring the Domain; and
the orchestrator's first attempted step always applies that derived
hostname. -/
theorem deriveHostname_spec :
    (∀ d : SystemNetworkDNS, d.Hostname ≠ "" → d.Domain ≠ "" →
      deriveHostname (some d) = d.Hostname ++ "." ++ d.Domain) ∧
    (∀ d : SystemNetworkDNS, d.Hostname ≠ "" → d.Domain = "" →
      deriveHostname (some d) = d.Hostname) ∧
    (∀ d : SystemNetworkDNS, d.Hostname = "" → deriveHostname (some d) = "") ∧
    deriveHostname none = "" ∧
    deriveHostname (some ⟨"", "example.com", [], []⟩) = "" ∧
    (∀ (env : ApplyEnv) (cfg : SystemNetworkConfig),
      (ApplyNetworkConfiguration env (some cfg)).2.head? =
        some (ApplyStep.setHostname (deriveHostname cfg.DNS))) := by
  refine ⟨?_, ?_, ?_, rfl, by decide, ?_⟩
  · intro d h1 h2
    simp [deriveHostname, h1, h2]
  · intro d h1 h2
    simp [deriveHostname, h1, h2]
  · intro d h1
    simp [deriveHostname, h1]
  · intro env cfg
    rcases h1 : env.setHostnameResult (deriveHostname cfg.DNS) with e1 | u1 <;>
      rcases h2 : env.updateEnvironmentResult with e2 | u2 <;>
      rcases h3 : env.generateResult with e3 | u3 <;>
      rcases h4 : env.renameWaitResult with e4 | u4 <;>
      rcases h5 : env.restartUnitResult "systemd-networkd" with e5 | u5 <;>
      rcases h6 : env.restartUnitResult "systemd-timesyncd" with e6 | u6 <;>
      simp [ApplyNetworkConfiguration, h1, h2, h3, h4, h5, h6]

/-- C2: the orchestrator runs hostname, proxy environment, artifact
generation, rename wait, network-service restart, time-service restart and
online wait strictly in that order; any step's failure returns that step's
error with no later step attempted (in particular an artifact-write failure
stops before the rename wait); and a nil config returns an error at once
with no step attempted. -/
theorem ApplyNetworkConfiguration_spec :
    (∀ env : ApplyEnv, ApplyNetworkConfiguration env none =
      (Except.error "no network configuration provided", [])) ∧
    (∀ (env : ApplyEnv) (cfg : SystemNetworkConfig),
      (ApplyNetworkConfiguration env (some cfg)).2 <+: applyStepOrder cfg) ∧
    (∀ (env : ApplyEnv) (cfg : SystemNetworkConfig) (e : String),
      env.setHostnameResult (deriveHostname cfg.DNS) = Except.error e →
        ApplyNetworkConfiguration env (some cfg) =
          (Except.error e, (applyStepOrder cfg).take 1)) ∧
    (∀ (env : ApplyEnv) (cfg : SystemNetworkConfig) (e : String),
      env.setHostnameResult (deriveHostname cfg.DNS) = Except.ok () →
      env.updateEnvironmentResult = Except.error e →
        ApplyNetworkConfiguration env (some cfg) =
          (Except.error e, (applyStepOrder cfg).take 2)) ∧
    (∀ (env : ApplyEnv) (cfg : SystemNetworkConfig) (e : String),
      env.setHostnameResult (deriveHostname cfg.DNS) = Except.ok () →
      env.updateEnvironmentResult = Except.ok () →
      env.generateResult = Except.error e →
        ApplyNetworkConfiguration env (some cfg) =
          (Except.error e, (applyStepOrder cfg).take 3)) ∧
    (∀ (env : ApplyEnv) (cfg : SystemNetworkConfig) (e : String),
      env.setHostnameResult (deriveHostname cfg.DNS) = Except.ok () →
      env.updateEnvironmentResult = Except.ok () →
      env.generateResult = Except.ok () →
      env.renameWaitResult = Except.error e →
        ApplyNetworkConfiguration env (some cfg) =
          (Except.error e, (applyStepOrder cfg).take 4)) ∧
    (∀ (env : ApplyEnv) (cfg : SystemNetworkConfig) (e : String),
      env.setHostnameResult (deriveHostname cfg.DNS) = Except.ok () →
      env.updateEnvironmentResult = Except.ok () →
      env.generateResult = Except.ok () →
      env.renameWaitResult = Except.ok () →
      env.restartUnitResult "systemd-networkd" = Except.error e →
        ApplyNetworkConfiguration env (some cfg) =
          (Except.error e, (applyStepOrder cfg).take 5)) ∧
    (∀ (env : ApplyEnv) (cfg : SystemNetworkConfig) (e : String),
      env.setHostnameResult (deriveHostname cfg.DNS) = Except.ok () →
      env.updateEnvironmentResult = Except.ok () →
      env.generateResult = Except.ok () →
      env.renameWaitResult = Except.ok () →
      env.restartUnitResult "systemd-networkd" = Except.ok () →
      env.restartUnitResult "systemd-timesyncd" = Except.error e →
        ApplyNetworkConfiguration env (some cfg) =
          (Except.error e, (applyStepOrder cfg).take 6)) ∧
    (∀ (env : ApplyEnv) (cfg : SystemNetworkConfig),
      env.setHostnameResult (deriveHostname cfg.DNS) = Except.ok () →
      env.updateEnvironmentResult = Except.ok () →
      env.generateResult = Except.ok () →
      env.renameWaitResult = Except.ok () →
      env.restartUnitResult "systemd-networkd" = Except.ok () →
      env.restartUnitResult "systemd-timesyncd" = Except.ok () →
        ApplyNetworkConfiguration env (some cfg) =
          (env.onlineWaitResult, applyStepOrder cfg)) ∧
    (∀ (env : ApplyEnv) (cfg : SystemNetworkConfig),
      (ApplyNetworkConfiguration env (some cfg)).1 = Except.ok () →
        (ApplyNetworkConfiguration env (some cfg)).2 = applyStepOrder cfg) := by
  refine ⟨fun env => rfl, ?_, ?_, ?_, ?_, ?_, ?_, ?_, ?_, ?_⟩
  · intro env cfg
    rcases h1 : env.setHostnameResult (deriveHostname cfg.DNS) with e1 | u1 <;>
      rcases h2 : env.updateEnvironmentResult with e2 | u2 <;>
      rcases h3 : env.generateResult with e3 | u3 <;>
      rcases h4 : env.renameWaitResult with e4 | u4 <;>
      rcases h5 : env.restartUnitResult "systemd-networkd" with e5 | u5 <;>
      rcases h6 : env.restartUnitResult "systemd-timesyncd" with e6 | u6 <;>
      simp only [ApplyNetworkConfiguration, applyStepOrder, h1, h2, h3, h4, h5, h6] <;>
      exact ⟨_, rfl⟩
  · intro env cfg e h1
    simp [ApplyNetworkConfiguration, applyStepOrder, h1]
  · intro env cfg e h1 h2
    simp [ApplyNetworkConfiguration, applyStepOrder, h1, h2]
  · intro env cfg e h1 h2 h3
    simp [ApplyNetworkConfiguration, applyStepOrder, h1, h2, h3]
  · intro env cfg e h1 h2 h3 h4
    simp [ApplyNetworkConfiguration, applyStepOrder, h1, h2, h3, h4]
  · intro env cfg e h1 h2 h3 h4 h5
    simp [ApplyNetworkConfiguration, applyStepOrder, h1, h2, h3, h4, h5]
  · intro env cfg e h1 h2 h3 h4 h5 h6
    simp [ApplyNetworkConfiguration, applyStepOrder, h1, h2, h3, h4, h5, h6]
  · intro env cfg h1 h2 h3 h4 h5 h6
    simp [ApplyNetworkConfiguration, applyStepOrder, h1, h2, h3, h4, h5, h6]
  · intro env cfg hres
    rcases h1 : env.setHostnameResult (deriveHostname cfg.DNS) with e1 | u1 <;>
      rcases h2 : env.updateEnvironmentResult with e2 | u2 <;>
      rcases h3 : env.generateResult with e3 | u3 <;>
      rcases h4 : env.renameWaitResult with e4 | u4 <;>
      rcases h5 : env.restartUnitResult "systemd-networkd" with e5 | u5 <;>
      rcases h6 : env.restartUnitResult "systemd-timesyncd" with e6 | u6 <;>
      simp only [ApplyNetworkConfiguration, applyStepOrder, h1, h2, h3, h4, h5, h6] at hres ⊢ <;>
      simp_all

/-- C8: in the rename waiter, a trigger or settle subprocess error is
returned at once as fatal; a journal match yields success; no match retries
the next cycle after the fixed backoff; and an elapsed deadline yields the
timeout error, which is also the outcome when no cycle ever matches. -/
theorem waitForUdevInterfaceRename_spec :
    (∀ (env : Nat → UdevEnv) (fuel t : Nat) (e : String),
      (env t).triggerResult = Except.error e →
        waitForUdevInterfaceRename env (fuel + 1) t = Except.error e) ∧
    (∀ (env : Nat → UdevEnv) (fuel t : Nat) (e : String),
      (env t).triggerResult = Except.ok () →
      (env t).settleResult = Except.error e →
        waitForUdevInterfaceRename env (fuel + 1) t = Except.error e) ∧
    (∀ (env : Nat → UdevEnv) (fuel t : Nat),
      (env t).triggerResult = Except.ok () →
      (env t).settleResult = Except.ok () →
      (env t).journalMatch = true →
        waitForUdevInterfaceRename env (fuel + 1) t = Except.ok ()) ∧
    (∀ (env : Nat → UdevEnv) (fuel t : Nat),
      (env t).triggerResult = Except.ok () →
      (env t).settleResult = Except.ok () →
      (env t).journalMatch = false →
        waitForUdevInterfaceRename env (fuel + 1) t =
          waitForUdevInterfaceRename env fuel (t + 1)) ∧
    (∀ (env : Nat → UdevEnv) (t : Nat),
      waitForUdevInterfaceRename env 0 t =
        Except.error "timed out waiting for udev to rename interface(s)") ∧
    (∀ env : Nat → UdevEnv,
      (∀ t, (env t).triggerResult = Except.ok () ∧ (env t).settleResult = Except.ok () ∧
        (env t).journalMatch = false) →
      ∀ fuel t, waitForUdevInterfaceRename env fuel t =
        Except.error "timed out waiting for udev to rename interface(s)") := by
  refine ⟨?_, ?_, ?_, ?_, fun env t => rfl, ?_⟩
  · intro env fuel t e h1
    simp [waitForUdevInterfaceRename, h1]
  · intro env fuel t e h1 h2
    simp [waitForUdevInterfaceRename, h1, h2]
  · intro env fuel t h1 h2 h3
    simp [waitForUdevInterfaceRename, h1, h2, h3]
  · intro env fuel t h1 h2 h3
    simp [waitForUdevInterfaceRename, h1, h2, h3]
  · intro env henv fuel
    induction fuel with
    | zero => intro t; rfl
    | succ n ih =>
      intro t
      obtain ⟨h1, h2, h3⟩ := henv t
      rw [waitForUdevInterfaceRename, h1, h2]
      simp only [h3]
      exact ih (t + 1)

/-! ## Lemmas about generateNetworkConfiguration -/

theorem generateTimesyncContents_ne_empty (n : SystemNetworkNTP) (h : n.Timeservers ≠ []) :
    generateTimesyncContents n ≠ "" := by
  unfold generateTimesyncContents
  rw [if_neg (by simpa using h)]
  intro heq
  have hd := congrArg String.data heq
  rw [String.data_append] at hd
  simp at hd

theorem writeFiles_removeResult (a b : Except String Unit)
    (w : String → String → Except String Unit) (r1 r2 : Except String Unit) :
    ∀ files, writeFiles ⟨a, b, w, r1⟩ files = writeFiles ⟨a, b, w, r2⟩ files
  | [] => rfl
  | f :: rest => by
    unfold writeFiles
    rw [writeFiles_removeResult a b w r1 r2 rest]

/-- C10: when no timeservers are configured (NTP absent or rendering empty)
the artifact writer ends by attempting removal of the stale time-sync
fallback file, returns success, and its outcome never depends on the
removal's result; when timeservers are configured, a failure writing the
fallback file is returned as a fatal error. -/
theorem generateNetworkConfiguration_ntp_spec :
    (∀ (env : FSEnv) (networkCfg : SystemNetworkConfig) (tr : List FSOp),
      networkCfg.NTP = none →
      writeAllConfigFiles env networkCfg = (Except.ok (), tr) →
        generateNetworkConfiguration env networkCfg =
          (Except.ok (), tr ++ [FSOp.removeTimesync])) ∧
    (∀ (env : FSEnv) (networkCfg : SystemNetworkConfig) (n : SystemNetworkNTP) (tr : List FSOp),
      networkCfg.NTP = some n →
      n.Timeservers = [] →
      writeAllConfigFiles env networkCfg = (Except.ok (), tr) →
        generateNetworkConfiguration env networkCfg =
          (Except.ok (), tr ++ [FSOp.removeTimesync])) ∧
    (∀ (env : FSEnv) (e : String) (networkCfg : SystemNetworkConfig),
      generateNetworkConfiguration { env with removeResult := Except.error e } networkCfg =
        generateNetworkConfiguration env networkCfg) ∧
    (∀ (env : FSEnv) (networkCfg : SystemNetworkConfig) (n : SystemNetworkNTP)
        (tr : List FSOp) (e : String),
      networkCfg.NTP = some n →
      n.Timeservers ≠ [] →
      writeAllConfigFiles env networkCfg = (Except.ok (), tr) →
      env.writeFileResult SystemdTimesyncConfigFile (generateTimesyncContents n) =
        Except.error e →
        generateNetworkConfiguration env networkCfg =
          (Except.error e, tr ++ [FSOp.writeFile SystemdTimesyncConfigFile])) := by
  refine ⟨?_, ?_, ?_, ?_⟩
  · intro env networkCfg tr hntp hw
    simp [generateNetworkConfiguration, hw, hntp]
  · intro env networkCfg n tr hntp hts hw
    have hc : generateTimesyncContents n = "" := by
      simp [generateTimesyncContents, hts]
    simp [generateNetworkConfiguration, hw, hntp, hc]
  · intro env e networkCfg
    cases env with
    | mk a b w r =>
      show generateNetworkConfiguration ⟨a, b, w, Except.error e⟩ networkCfg = _
      unfold generateNetworkConfiguration writeAllConfigFiles
      simp only [writeFiles_removeResult a b w (Except.error e) r]
  · intro env networkCfg n tr e hntp hts hw hwrite
    have hc := generateTimesyncContents_ne_empty n hts
    simp [generateNetworkConfiguration, hw, hntp, hc, hwrite]

/-! ## Lemmas about waitForNetworkOnline -/

theorem onlineWaitLoop_ok (env : Nat → NetEnv) (devices : List (String × Nat)) :
    ∀ (fuel t : Nat), onlineWaitLoop env devices fuel t = Except.ok () →
      ∃ u, t ≤ u ∧ u < t + fuel ∧ allDevicesOnline (env u) devices = true
  | 0, t, h => by simp [onlineWaitLoop] at h
  | fuel + 1, t, h => by
    rw [onlineWaitLoop] at h
    by_cases hall : allDevicesOnline (env t) devices = true
    · exact ⟨t, le_refl t, by omega, hall⟩
    · rw [if_neg hall] at h
      obtain ⟨u, hu1, hu2, hu3⟩ := onlineWaitLoop_ok env devices fuel (t + 1) h
      exact ⟨u, by omega, by omega, hu3⟩

theorem onlineWaitLoop_cases (env : Nat → NetEnv) (devices : List (String × Nat)) :
    ∀ (fuel t : Nat), onlineWaitLoop env devices fuel t = Except.ok () ∨
      onlineWaitLoop env devices fuel t =
        Except.error "timed out waiting for network to come online"
  | 0, _ => Or.inr rfl
  | fuel + 1, t => by
    rw [onlineWaitLoop]
    by_cases hall : allDevicesOnline (env t) devices = true
    · rw [if_pos hall]
      exact Or.inl rfl
    · rw [if_neg hall]
      exact onlineWaitLoop_cases env devices fuel (t + 1)

theorem foldl_addDevice {α : Type} (f : α → String) (g : α → Nat) :
    ∀ (items : List α) (m : List (String × Nat)),
      (∀ x ∈ items, ∀ p ∈ m, p.1 ≠ f x) →
      (items.map f).Nodup →
      items.foldl (fun acc x => if g x = 0 then acc else mapInsert acc (f x) (g x)) m =
        m ++ (items.filter (fun x => g x != 0)).map (fun x => (f x, g x))
  | [], m, _, _ => by simp
  | x :: rest, m, hfresh, hnodup => by
    simp only [List.map_cons, List.nodup_cons] at hnodup
    simp only [List.foldl_cons, List.filter_cons]
    by_cases hx : g x = 0
    · rw [if_pos hx]
      rw [foldl_addDevice f g rest m
        (fun y hy p hp => hfresh y (List.mem_cons_of_mem x hy) p hp) hnodup.2]
      simp [hx]
    · rw [if_neg hx]
      have hins : mapInsert m (f x) (g x) = m ++ [(f x, g x)] := by
        unfold mapInsert
        rw [if_neg ?hany]
        case hany =>
          simp only [List.any_eq_true, not_exists, not_and, Bool.not_eq_true]
          intro p hp
          simp [hfresh x (List.mem_cons_self x rest) p hp]
      have hfresh2 : ∀ y ∈ rest, ∀ p ∈ m ++ [(f x, g x)], p.1 ≠ f y := by
        intro y hy p hp
        rcases List.mem_append.mp hp with hp | hp
        · exact hfresh y (List.mem_cons_of_mem x hy) p hp
        · simp only [List.mem_singleton] at hp
          subst hp
          intro hc
          have hc2 : f x = f y := hc
          exact hnodup.1 (by rw [hc2]; exact List.mem_map.mpr ⟨y, hy, rfl⟩)
      rw [hins, foldl_addDevice f g rest (m ++ [(f x, g x)]) hfresh2 hnodup.2]
      simp [hx]

theorem mem_filterMap_name {α : Type} (f : α → String) (g : α → Nat) (items : List α)
    (p : String × Nat)
    (hp : p ∈ (items.filter (fun x => g x != 0)).map (fun x => (f x, g x))) :
    p.1 ∈ items.map f := by
  obtain ⟨x, hx, rfl⟩ := List.mem_map.mp hp
  exact List.mem_map.mpr ⟨x, (List.mem_filter.mp hx).1, rfl⟩

theorem devicesToCheck_eq (networkCfg : SystemNetworkConfig)
    (h : (namesOfConfig networkCfg).Nodup) :
    devicesToCheck networkCfg =
      (networkCfg.Interfaces.filter (fun i => i.Addresses.length != 0)).map
        (fun i => (i.Name, i.Addresses.length)) ++
      (networkCfg.Bonds.filter (fun b => b.Addresses.length != 0)).map
        (fun b => (b.Name, b.Addresses.length)) ++
      (networkCfg.VLANs.filter (fun v => v.Addresses.length != 0)).map
        (fun v => (v.Name, v.Addresses.length)) := by
  unfold namesOfConfig at h
  rw [List.nodup_append] at h
  obtain ⟨hIB, hV, hdisjV⟩ := h
  rw [List.nodup_append] at hIB
  obtain ⟨hI, hB, hdisjIB⟩ := hIB
  simp only [devicesToCheck]
  rw [foldl_addDevice (fun i => i.Name) (fun i => i.Addresses.length)
    networkCfg.Interfaces [] (by simp) hI]
  rw [foldl_addDevice (fun b => b.Name) (fun b => b.Addresses.length)
    networkCfg.Bonds _ ?freshB hB]
  rw [foldl_addDevice (fun v => v.Name) (fun v => v.Addresses.length)
    networkCfg.VLANs _ ?freshV hV]
  · simp [List.append_assoc]
  case freshB =>
    intro b hb p hp
    simp only [List.nil_append] at hp
    have hname := mem_filterMap_name (fun i => i.Name) (fun i => i.Addresses.length)
      networkCfg.Interfaces p hp
    intro hc
    exact hdisjIB hname (hc ▸ List.mem_map.mpr ⟨b, hb, rfl⟩)
  case freshV =>
    intro v hv p hp
    simp only [List.nil_append] at hp
    rcases List.mem_append.mp hp with hp | hp
    · have hname := mem_filterMap_name (fun i => i.Name) (fun i => i.Addresses.length)
        networkCfg.Interfaces p hp
      intro hc
      exact hdisjV (List.mem_append_left _ hname) (hc ▸ List.mem_map.mpr ⟨v, hv, rfl⟩)
    · have hname := mem_filterMap_name (fun b => b.Name) (fun b => b.Addresses.length)
        networkCfg.Bonds p hp
      intro hc
      exact hdisjV (List.mem_append_right _ hname) (hc ▸ List.mem_map.mpr ⟨v, hv, rfl⟩)

/-- C1: the online waiter succeeds only when, at some poll cycle before the
deadline, every tracked device reports link-online and an observed
non-link-local address count equal to its declared address count; under the
data model's unique-names invariant the tracked devices are exactly the
interfaces, bonds and VLANs declaring at least one address entry, each with
its declared count; fe80:-prefixed addresses are never counted; a failed
status query makes a device count as not online for that cycle; and the
only two outcomes are success and the timeout error. -/
theorem waitForNetworkOnline_spec :
    (∀ (env : Nat → NetEnv) (networkCfg : SystemNetworkConfig) (fuel : Nat),
      waitForNetworkOnline env networkCfg fuel = Except.ok () →
        ∃ t, t < fuel ∧ ∀ p ∈ devicesToCheck networkCfg,
          isOnline (env t) p.1 = true ∧ getNumberOfIPs (env t) p.1 = (p.2 : Int)) ∧
    (∀ networkCfg : SystemNetworkConfig, (namesOfConfig networkCfg).Nodup →
      devicesToCheck networkCfg =
        (networkCfg.Interfaces.filter (fun i => i.Addresses.length != 0)).map
          (fun i => (i.Name, i.Addresses.length)) ++
        (networkCfg.Bonds.filter (fun b => b.Addresses.length != 0)).map
          (fun b => (b.Name, b.Addresses.length)) ++
        (networkCfg.VLANs.filter (fun v => v.Addresses.length != 0)).map
          (fun v => (v.Name, v.Addresses.length))) ∧
    (∀ (env : NetEnv) (name : String),
      env.statusOutput name = none → isOnline env name = false) ∧
    (∀ (env : NetEnv) (name : String) (addrs : List String),
      env.ipAddresses name = some addrs →
      (∀ a ∈ addrs, stringHasPrefix a "fe80:" = true) →
        getNumberOfIPs env name = 0) ∧
    getNumberOfIPs ⟨fun _ => none, fun _ => some ["fe80::1/64"]⟩ "br0" = 0 ∧
    (∀ (env : Nat → NetEnv) (networkCfg : SystemNetworkConfig) (fuel : Nat),
      waitForNetworkOnline env networkCfg fuel = Except.ok () ∨
      waitForNetworkOnline env networkCfg fuel =
        Except.error "timed out waiting for network to come online") ∧
    (∀ (env : Nat → NetEnv) (networkCfg : SystemNetworkConfig) (fuel : Nat),
      0 < fuel → allDevicesOnline (env 0) (devicesToCheck networkCfg) = true →
        waitForNetworkOnline env networkCfg fuel = Except.ok ()) := by
  refine ⟨?_, devicesToCheck_eq, ?_, ?_, by decide, ?_, ?_⟩
  · intro env networkCfg fuel h
    obtain ⟨u, _, hu2, hu3⟩ := onlineWaitLoop_ok env (devicesToCheck networkCfg) fuel 0 h
    refine ⟨u, by omega, ?_⟩
    intro p hp
    have := (List.all_eq_true.mp hu3) p hp
    simp only [Bool.and_eq_true, beq_iff_eq] at this
    exact this
  · intro env name h
    simp [isOnline, h]
  · intro env name addrs h hall
    have hfilter : addrs.filter (fun a => !(stringHasPrefix a "fe80:")) = [] := by
      rw [List.filter_eq_nil_iff]
      intro a ha
      simp [hall a ha]
    simp [getNumberOfIPs, h, hfilter]
  · intro env networkCfg fuel
    exact onlineWaitLoop_cases env (devicesToCheck networkCfg) fuel 0
  · intro env networkCfg fuel hfuel hall
    unfold waitForNetworkOnline
    cases fuel with
    | zero => omega
    | succ n =>
      rw [onlineWaitLoop, if_pos hall]
